import Mathlib

/-!
Verification of the HTTP exchange connector core
(`src/plugins/exchange/http_exchange_connector.cc`).

The C++ class `HttpExchangeConnector` is shallowly embedded as a pure state
type `ConnectorState` together with one Lean function per method.  Pointer
identity of heap-allocated handlers and loggers is modelled by natural-number
ids handed out from monotonic counters; `std::shared_ptr` fields become
`Option Nat`.  The `std::set<std::shared_ptr<HttpAuctionHandler>>` of live
handlers becomes a duplicate-free list of handler records.  Fallible methods
(`makeNewHandlerShared`, which throws `ML::Exception`) return `Except`.
Floating-point quantities (ping times, the connection load factor) are
modelled with exact rationals.
-/

namespace RTBKIT

/-- Status code, content type and body, mirroring `HttpResponse`. -/
structure HttpResponse where
  code : Nat
  contentType : String
  body : String
deriving DecidableEq, Repr

/-- The parts of `HttpHeader` the connector reads: verb and resource. -/
structure HttpHeader where
  verb : String
  resource : String
deriving DecidableEq, Repr

/-- One live `HttpAuctionHandler`: its identity (the shared-ptr address,
modelled as an id), its `logger` member (a shared-ptr to an
`HttpAuctionLogger`, modelled as an optional logger id) and its stored
request `header`. -/
structure HttpAuctionHandler where
  hid : Nat
  logger : Option Nat
  header : HttpHeader
deriving DecidableEq, Repr

/-- What a handler factory produces before the allocation gives the new
object its identity: the constructor-initialised `logger` and `header`
members of a fresh `HttpAuctionHandler`. -/
structure HandlerProto where
  logger : Option Nat
  header : HttpHeader
deriving DecidableEq, Repr

/-- The state of an `HttpExchangeConnector`: its configuration fields, the
shared logger pointer, the live handler set and the installed handler
factory.  The factory (`std::function<HttpAuctionHandler * ()>`) may be
empty (`none`); when installed it is given the id of the allocation it is
about to make and may return `none` (a null pointer). -/
structure ConnectorState where
  numThreads : Int
  realTimePriority : Int
  listenPort : Int
  bindHost : String
  performNameLookup : Bool
  backlog : Int
  auctionResource : String
  auctionVerb : String
  pingTimesByHostMs : List (String × ℚ)
  pingTimeUnknownHostsMs : ℚ
  acceptAuctionProbability : ℚ
  logger : Option Nat
  nextLoggerId : Nat
  handlers : List HttpAuctionHandler
  nextHandlerId : Nat
  handlerFactory : Option (Nat → Option HandlerProto)

/-- The default factory installed by `postConstructorInit`:
`[=] () \x7b return new HttpAuctionHandler(); \x7d` — it always returns a
fresh default-constructed handler (logger unbound), never null. -/
def defaultHandlerFactory : Nat → Option HandlerProto :=
  fun _ => some { logger := none, header := { verb := "", resource := "" } }

/-- `postConstructorInit`: the field initialisation performed by both
constructors.  `DEF_BACKLOG` is a constant of the external transport
(`PassiveEndpoint`), taken here as a parameter. -/
def postConstructorInit (DEF_BACKLOG : Int) : ConnectorState :=
  { numThreads := 8
    realTimePriority := -1
    listenPort := 10001
    bindHost := "*"
    performNameLookup := true
    backlog := DEF_BACKLOG
    auctionResource := ""
    auctionVerb := ""
    pingTimesByHostMs := []
    pingTimeUnknownHostsMs := 20
    acceptAuctionProbability := 1
    logger := none
    nextLoggerId := 0
    handlers := []
    nextHandlerId := 0
    handlerFactory := some defaultHandlerFactory }

/-- `startRequestLogging(filename, count)`: under the handlers lock,
replaces the shared logger with a freshly constructed
`HttpAuctionLogger(filename, count)` (a new object, hence a fresh id). -/
def startRequestLogging (s : ConnectorState) (filename : String) (count : Int) : ConnectorState :=
  { s with logger := some s.nextLoggerId, nextLoggerId := s.nextLoggerId + 1 }

/-- `stopRequestLogging()`: under the handlers lock, closes the current
logger if present and resets the shared pointer.  Closing mutates the
logger object, not the connector, so in this state model only the reset of
the pointer is visible. -/
def stopRequestLogging (s : ConnectorState) : ConnectorState :=
  { s with logger := none }

/-- The two `ML::Exception` failures `makeNewHandlerShared` can throw. -/
inductive MakeHandlerError where
  | configurationError (msg : String)
  | constructionError (msg : String)
deriving DecidableEq, Repr

/-- `std::set` insertion: adds the element unless already present. -/
def insertHandler (h : HttpAuctionHandler) (hs : List HttpAuctionHandler) :
    List HttpAuctionHandler :=
  if h ∈ hs then hs else h :: hs

/-- `makeNewHandlerShared()`: throws if the handler factory is empty, calls
the factory, throws if it returned null, otherwise (under the handlers
lock) binds the current logger to the new handler when one is installed and
inserts the handler into the live set, returning the shared pointer.  The
fresh allocation receives id `nextHandlerId`. -/
def makeNewHandlerShared (s : ConnectorState) :
    Except MakeHandlerError (HttpAuctionHandler × ConnectorState) :=
  match s.handlerFactory with
  | none => .error (.configurationError "need to initialize handler factory")
  | some factory =>
    match factory s.nextHandlerId with
    | none => .error (.constructionError "failed to create handler")
    | some proto =>
      let h0 : HttpAuctionHandler :=
        { hid := s.nextHandlerId, logger := proto.logger, header := proto.header }
      let handler : HttpAuctionHandler :=
        match s.logger with
        | some l => { h0 with logger := some l }
        | none => h0
      .ok (handler,
        { s with handlers := insertHandler handler s.handlers
                 nextHandlerId := s.nextHandlerId + 1 })

/-- `finishedWithHandler(handler)`: under the handlers lock, erases the
handler from the live set (`std::set::erase`: removes it when present,
no-op otherwise). -/
def finishedWithHandler (s : ConnectorState) (h : HttpAuctionHandler) : ConnectorState :=
  { s with handlers := s.handlers.erase h }

/-- `ML::xdiv`: division that yields 0 when the denominator is 0. -/
def xdiv (num den : ℚ) : ℚ :=
  if den = 0 then 0 else num / den

/-- The JSON status report built by `getServiceStatus`. -/
structure StatusReport where
  numConnections : Nat
  activeConnections : Nat
  connectionLoadFactor : ℚ
  hostConnections : List (String × Nat)
deriving DecidableEq, Repr

/-- `getServiceStatus()`: reads the transport counters
(`numConnections()`, `numServingRequest()`, `numConnectionsByHost()`,
supplied here as arguments since the transport is an external collaborator)
and reports them together with the load factor `xdiv(active, total)`. -/
def getServiceStatus (numConnections numServingRequest : Nat)
    (peerCounts : List (String × Nat)) : StatusReport :=
  { numConnections := numConnections
    activeConnections := numServingRequest
    connectionLoadFactor := xdiv (numServingRequest : ℚ) (numConnections : ℚ)
    hostConnections := peerCounts }

/-- `std::map::find` on the peer→latency mapping: the value at an exactly
matching key, if any. -/
def findPing (m : List (String × ℚ)) (peer : String) : Option ℚ :=
  match m with
  | [] => none
  | (k, v) :: rest => if k = peer then some v else findPing rest peer

/-- `getRoundTripTimeMs(connection, header)`: looks the connection's peer
name up in `pingTimesByHostMs`; when absent returns
`pingTimeUnknownHostsMs`, otherwise the mapped value. -/
def getRoundTripTimeMs (s : ConnectorState) (peerName : String) : ℚ :=
  match findPing s.pingTimesByHostMs peerName with
  | none => s.pingTimeUnknownHostsMs
  | some v => v

/-- The type of the virtual `getResponse(connection, requestHeader,
auction)` method (exchange-overridable; the base implementation throws, so
an override may be any function into `Except`). `Auction` is opaque to
this core and is abstracted by a type parameter below. -/
def GetResponseFn (Auction : Type) : Type :=
  HttpAuctionHandler → HttpHeader → Auction → Except String RTBKIT.HttpResponse

/-- `getDroppedAuctionResponse(connection, auction, reason)`: the default
for when a dropped auction == no bid — delegates to the virtual
`getResponse(connection, connection.header, auction)`. -/
def getDroppedAuctionResponse {Auction : Type} (getResponse : GetResponseFn Auction)
    (connection : HttpAuctionHandler) (auction : Auction) (reason : String) :
    Except String RTBKIT.HttpResponse :=
  getResponse connection connection.header auction

/-- `getErrorResponse(connection, auction, errorMessage)`: the default for
when an error == no bid — delegates to the virtual
`getResponse(connection, connection.header, auction)`. -/
def getErrorResponse {Auction : Type} (getResponse : GetResponseFn Auction)
    (connection : HttpAuctionHandler) (auction : Auction) (errorMessage : String) :
    Except String RTBKIT.HttpResponse :=
  getResponse connection connection.header auction

/-- The observable effect of `handleUnknownRequest`: either a response put
on the wire or an error response sent. -/
inductive WireAction where
  | putResponseOnWire (r : RTBKIT.HttpResponse)
  | sendErrorResponse (msg : String)
deriving DecidableEq, Repr

/-- `handleUnknownRequest(connection, header, payload)`: a request for
`"/ready"` is answered `HttpResponse(200, "text/plain", "1")`; any other
resource gets `sendErrorResponse("unknown resource " + header.resource)`. -/
def handleUnknownRequest (s : ConnectorState) (header : HttpHeader)
    (payload : String) : WireAction :=
  if header.resource = "/ready" then
    .putResponseOnWire { code := 200, contentType := "text/plain", body := "1" }
  else
    .sendErrorResponse ("unknown resource " ++ header.resource)

/-- The calls `start()` makes into the external transport:
`PassiveEndpoint::init(listenPort, bindHost, numThreads, true,
performNameLookup, backlog)` and, conditionally,
`PassiveEndpoint::makeRealTime(realTimePriority)`. -/
structure StartEffect where
  initListenPort : Int
  initBindHost : String
  initNumThreads : Int
  initReuseAddr : Bool
  initNameLookup : Bool
  initBacklog : Int
  madeRealTime : Option Int
deriving DecidableEq, Repr

/-- `start()`: initialises the transport from the current configuration and
calls `makeRealTime(realTimePriority)` exactly when
`realTimePriority > -1`. -/
def start (s : ConnectorState) : StartEffect :=
  { initListenPort := s.listenPort
    initBindHost := s.bindHost
    initNumThreads := s.numThreads
    initReuseAddr := true
    initNameLookup := s.performNameLookup
    initBacklog := s.backlog
    madeRealTime := if s.realTimePriority > -1 then some s.realTimePriority else none }

/-! Operation sequences over the connector, used to state the registry and
logger invariants. -/

/-- A logger-management call: `startRequestLogging` or
`stopRequestLogging`. -/
inductive LogOp where
  | startLogging (filename : String) (count : Int)
  | stopLogging
deriving Repr

/-- Apply one logger-management call. -/
def applyLogOp (s : ConnectorState) (op : LogOp) : ConnectorState :=
  match op with
  | .startLogging filename count => startRequestLogging s filename count
  | .stopLogging => stopRequestLogging s

/-- Apply a sequence of logger-management calls, oldest first. -/
def applyLogOps (s : ConnectorState) (ops : List LogOp) : ConnectorState :=
  ops.foldl applyLogOp s

/-- A registry call: `makeNewHandlerShared` or `finishedWithHandler h`. -/
inductive RegOp where
  | create
  | release (h : HttpAuctionHandler)
deriving Repr

/-- Apply one registry call; a `create` whose `makeNewHandlerShared` throws
leaves the state unchanged (the exception propagates past the connector). -/
def applyRegOp (s : ConnectorState) (op : RegOp) : ConnectorState :=
  match op with
  | .create =>
    match makeNewHandlerShared s with
    | .ok (_, s2) => s2
    | .error _ => s
  | .release h => finishedWithHandler s h

/-- Apply a sequence of registry calls, oldest first. -/
def runRegOps (s : ConnectorState) (ops : List RegOp) : ConnectorState :=
  ops.foldl applyRegOp s

/-- Count, along a run, the successful `makeNewHandlerShared` calls (first
component) and the `finishedWithHandler` calls whose handler was present in
the live set at the moment of the call (second component). -/
def countRegOps (s : ConnectorState) : List RegOp → Nat × Nat
  | [] => (0, 0)
  | .create :: ops =>
    match makeNewHandlerShared s with
    | .ok p => (1 + (countRegOps p.2 ops).1, (countRegOps p.2 ops).2)
    | .error _ => countRegOps s ops
  | .release h :: ops =>
    let rest := countRegOps (finishedWithHandler s h) ops
    if h ∈ s.handlers then (rest.1, 1 + rest.2) else rest

/-- Well-formedness of the live set with respect to the allocation counter:
every live handler's id was allocated earlier, and ids are distinct (heap
addresses of distinct live objects differ).  Holds for
`postConstructorInit` and is preserved by every operation. -/
def HandlersWf (s : ConnectorState) : Prop :=
  (∀ h ∈ s.handlers, h.hid < s.nextHandlerId) ∧ s.handlers.Nodup

/-! Helper lemmas shared by several claims. -/

theorem mem_insertHandler (h : HttpAuctionHandler) (hs : List HttpAuctionHandler) :
    h ∈ insertHandler h hs := by
  unfold insertHandler
  split
  · assumption
  · exact List.mem_cons_self h hs

theorem makeNewHandlerShared_ok_inv (s : ConnectorState)
    (h : HttpAuctionHandler) (s2 : ConnectorState)
    (hmk : makeNewHandlerShared s = .ok (h, s2)) :
    h.hid = s.nextHandlerId ∧
    s2.handlers = insertHandler h s.handlers ∧
    s2.nextHandlerId = s.nextHandlerId + 1 ∧
    s2.handlerFactory = s.handlerFactory ∧
    s2.logger = s.logger ∧
    (∀ L : Nat, s.logger = some L → h.logger = some L) := by
  cases hf : s.handlerFactory with
  | none =>
    simp only [makeNewHandlerShared, hf] at hmk
    exact Except.noConfusion hmk
  | some factory =>
    cases hp : factory s.nextHandlerId with
    | none =>
      simp only [makeNewHandlerShared, hf, hp] at hmk
      exact Except.noConfusion hmk
    | some proto =>
      cases hl : s.logger with
      | none =>
        simp only [makeNewHandlerShared, hf, hp, hl, Except.ok.injEq,
          Prod.mk.injEq] at hmk
        obtain ⟨hh, hs⟩ := hmk
        subst hh
        subst hs
        refine ⟨rfl, rfl, rfl, by simp [hf], by simp [hl], ?_⟩
        intro L hL
        exact absurd hL (by simp)
      | some l =>
        simp only [makeNewHandlerShared, hf, hp, hl, Except.ok.injEq,
          Prod.mk.injEq] at hmk
        obtain ⟨hh, hs⟩ := hmk
        subst hh
        subst hs
        refine ⟨rfl, rfl, rfl, by simp [hf], by simp [hl], ?_⟩
        intro L hL
        obtain rfl : l = L := by injection hL
        rfl

theorem makeNewHandlerShared_ok_grow (s : ConnectorState)
    (h : HttpAuctionHandler) (s2 : ConnectorState)
    (hwf : HandlersWf s)
    (hmk : makeNewHandlerShared s = .ok (h, s2)) :
    s2.handlers.length = s.handlers.length + 1 ∧ HandlersWf s2 := by
  obtain ⟨hhid, hhs, hnext, -, -, -⟩ := makeNewHandlerShared_ok_inv s h s2 hmk
  obtain ⟨hlt, hnd⟩ := hwf
  have hnm : h ∉ s.handlers := by
    intro hmem
    have := hlt h hmem
    omega
  have hins : insertHandler h s.handlers = h :: s.handlers := by
    unfold insertHandler
    split
    · exact absurd (by assumption) hnm
    · rfl
  constructor
  · rw [hhs, hins]
    rfl
  · constructor
    · intro x hx
      rw [hhs, hins] at hx
      rw [hnext]
      rcases List.mem_cons.mp hx with hxh | hxm
      · subst hxh; omega
      · have := hlt x hxm; omega
    · rw [hhs, hins]
      exact List.nodup_cons.mpr ⟨hnm, hnd⟩

theorem applyRegOp_wf (s : ConnectorState) (op : RegOp) (hwf : HandlersWf s) :
    HandlersWf (applyRegOp s op) := by
  cases op with
  | create =>
    unfold applyRegOp
    cases hmk : makeNewHandlerShared s with
    | ok p =>
      exact (makeNewHandlerShared_ok_grow s p.1 p.2 hwf (by rw [hmk])).2
    | error e => exact hwf
  | release h =>
    obtain ⟨hlt, hnd⟩ := hwf
    constructor
    · intro x hx
      exact hlt x (List.mem_of_mem_erase hx)
    · exact hnd.erase h

theorem applyRegOp_factory (s : ConnectorState) (op : RegOp) :
    (applyRegOp s op).handlerFactory = s.handlerFactory := by
  cases op with
  | create =>
    unfold applyRegOp
    cases hmk : makeNewHandlerShared s with
    | ok p => exact (makeNewHandlerShared_ok_inv s p.1 p.2 (by rw [hmk])).2.2.2.1
    | error e => rfl
  | release h => rfl

theorem runRegOps_factory (s : ConnectorState) (ops : List RegOp) :
    (runRegOps s ops).handlerFactory = s.handlerFactory := by
  induction ops generalizing s with
  | nil => rfl
  | cons op ops ih =>
    calc (runRegOps s (op :: ops)).handlerFactory
        = (runRegOps (applyRegOp s op) ops).handlerFactory := rfl
      _ = (applyRegOp s op).handlerFactory := ih _
      _ = s.handlerFactory := applyRegOp_factory s op

theorem finishedWithHandler_not_mem (s : ConnectorState) (h : HttpAuctionHandler)
    (hnm : h ∉ s.handlers) : finishedWithHandler s h = s := by
  unfold finishedWithHandler
  rw [List.erase_of_not_mem hnm]

theorem runRegOps_length (s : ConnectorState) (ops : List RegOp)
    (hwf : HandlersWf s) :
    ((runRegOps s ops).handlers.length : ℤ)
      = (s.handlers.length : ℤ) + ((countRegOps s ops).1 : ℤ)
        - ((countRegOps s ops).2 : ℤ) := by
  induction ops generalizing s with
  | nil => simp [runRegOps, countRegOps]
  | cons op ops ih =>
    cases op with
    | create =>
      have hrun : runRegOps s (.create :: ops)
          = runRegOps (applyRegOp s .create) ops := rfl
      cases hmk : makeNewHandlerShared s with
      | ok p =>
        have happ : applyRegOp s .create = p.2 := by
          unfold applyRegOp
          rw [hmk]
        have hgrow := makeNewHandlerShared_ok_grow s p.1 p.2 hwf (by rw [hmk])
        have hcnt1 : (countRegOps s (.create :: ops)).1
            = 1 + (countRegOps p.2 ops).1 := by
          simp only [countRegOps, hmk]
        have hcnt2 : (countRegOps s (.create :: ops)).2
            = (countRegOps p.2 ops).2 := by
          simp only [countRegOps, hmk]
        have ihs := ih p.2 hgrow.2
        rw [hrun, happ, hcnt1, hcnt2, ihs, hgrow.1]
        push_cast
        ring
      | error e =>
        have happ : applyRegOp s .create = s := by
          unfold applyRegOp
          rw [hmk]
        have hcnt : countRegOps s (.create :: ops) = countRegOps s ops := by
          simp only [countRegOps, hmk]
        have ihs := ih s hwf
        rw [hrun, happ, hcnt, ihs]
    | release h =>
      have hrun : runRegOps s (.release h :: ops)
          = runRegOps (finishedWithHandler s h) ops := rfl
      have hwf2 : HandlersWf (finishedWithHandler s h) :=
        applyRegOp_wf s (.release h) hwf
      have ihs := ih (finishedWithHandler s h) hwf2
      by_cases hmem : h ∈ s.handlers
      · have hlen : (finishedWithHandler s h).handlers.length
            = s.handlers.length - 1 := List.length_erase_of_mem hmem
        have hpos : 1 ≤ s.handlers.length := List.length_pos_of_mem hmem
        have hcnt1 : (countRegOps s (.release h :: ops)).1
            = (countRegOps (finishedWithHandler s h) ops).1 := by
          simp only [countRegOps, if_pos hmem]
        have hcnt2 : (countRegOps s (.release h :: ops)).2
            = 1 + (countRegOps (finishedWithHandler s h) ops).2 := by
          simp only [countRegOps, if_pos hmem]
        rw [hrun, hcnt1, hcnt2, ihs, hlen]
        have hsub : ((s.handlers.length - 1 : ℕ) : ℤ)
            = (s.handlers.length : ℤ) - 1 := by omega
        rw [hsub]
        push_cast
        ring
      · have heq : finishedWithHandler s h = s :=
          finishedWithHandler_not_mem s h hmem
        have hcnt : countRegOps s (.release h :: ops)
            = countRegOps (finishedWithHandler s h) ops := by
          simp only [countRegOps, if_neg hmem]
        rw [hrun, hcnt, ihs, heq]

theorem applyLogOps_handlers (s : ConnectorState) (ops : List LogOp) :
    (applyLogOps s ops).handlers = s.handlers := by
  induction ops generalizing s with
  | nil => rfl
  | cons op ops ih =>
    have hstep : applyLogOps s (op :: ops) = applyLogOps (applyLogOp s op) ops := rfl
    rw [hstep, ih]
    cases op with
    | startLogging f c => rfl
    | stopLogging => rfl

/-! Theorems for the claims. -/

/-- C3: for every peer, `getRoundTripTimeMs` returns exactly the value the
peer-to-latency mapping holds for it when a match exists, and the
unknown-peer default `pingTimeUnknownHostsMs` when none does; the call is
a pure lookup that leaves the mapping untouched. -/
theorem getRoundTripTimeMs_lookup (s : ConnectorState) (peer : String) :
    (∀ v : ℚ, findPing s.pingTimesByHostMs peer = some v →
      getRoundTripTimeMs s peer = v) ∧
    (findPing s.pingTimesByHostMs peer = none →
      getRoundTripTimeMs s peer = s.pingTimeUnknownHostsMs) := by
  constructor
  · intro v hv
    simp [getRoundTripTimeMs, hv]
  · intro hv
    simp [getRoundTripTimeMs, hv]

/-- Witness for C3 at a concrete mapping: peer "a" is mapped to 7 ms, peer
"zzz" is absent and gets the default 20 ms. -/
theorem getRoundTripTimeMs_lookup_witness :
    (findPing [("a", (7 : ℚ)), ("b", 9)] "a" = some 7 →
      getRoundTripTimeMs
        { postConstructorInit 128 with pingTimesByHostMs := [("a", 7), ("b", 9)] } "a" = 7) ∧
    (findPing [("a", (7 : ℚ)), ("b", 9)] "zzz" = none →
      getRoundTripTimeMs
        { postConstructorInit 128 with pingTimesByHostMs := [("a", 7), ("b", 9)] } "zzz" = 20) :=
  ⟨fun h => (getRoundTripTimeMs_lookup
      { postConstructorInit 128 with pingTimesByHostMs := [("a", 7), ("b", 9)] } "a").1 7 h,
   fun h => (getRoundTripTimeMs_lookup
      { postConstructorInit 128 with pingTimesByHostMs := [("a", 7), ("b", 9)] } "zzz").2 h⟩

/-- C4: without an override, `getDroppedAuctionResponse` and
`getErrorResponse` each produce exactly the result of calling the virtual
`getResponse` on the same handler, the handler's stored request header and
the same auction — dropped auctions and internal errors default to the
no-bid response. -/
theorem defaultResponses_delegate {Auction : Type} (getResponse : GetResponseFn Auction)
    (connection : HttpAuctionHandler) (auction : Auction) (reason errorMessage : String) :
    getDroppedAuctionResponse getResponse connection auction reason
        = getResponse connection connection.header auction ∧
    getErrorResponse getResponse connection auction errorMessage
        = getResponse connection connection.header auction := by
  exact ⟨rfl, rfl⟩

/-- C5: a request whose resource is the liveness path `"/ready"` is
answered with status 200, content type `text/plain` and body `"1"`, for
any verb, any payload and any connector configuration. -/
theorem handleUnknownRequest_ready (s : ConnectorState) (header : HttpHeader)
    (payload : String) (hres : header.resource = "/ready") :
    handleUnknownRequest s header payload
      = .putResponseOnWire { code := 200, contentType := "text/plain", body := "1" } := by
  simp [handleUnknownRequest, hres]

/-- Witness for C5: a POST to `/ready` on a connector configured with a
different auction resource and verb still gets the 200 / `"1"` reply. -/
theorem handleUnknownRequest_ready_witness :
    handleUnknownRequest
      { postConstructorInit 128 with auctionResource := "/bid", auctionVerb := "POST" }
      { verb := "POST", resource := "/ready" } "payload"
      = .putResponseOnWire { code := 200, contentType := "text/plain", body := "1" } :=
  handleUnknownRequest_ready
    { postConstructorInit 128 with auctionResource := "/bid", auctionVerb := "POST" }
    { verb := "POST", resource := "/ready" } "payload" rfl

/-- C6: a request for any resource other than `"/ready"` is answered with
an error response whose message is `"unknown resource "` followed by the
requested path (so the message contains the path), and no 200
acknowledgment is put on the wire. -/
theorem handleUnknownRequest_unknown (s : ConnectorState) (header : HttpHeader)
    (payload : String) (hres : header.resource ≠ "/ready") :
    handleUnknownRequest s header payload
        = .sendErrorResponse ("unknown resource " ++ header.resource) ∧
    ∀ r : RTBKIT.HttpResponse,
      handleUnknownRequest s header payload ≠ .putResponseOnWire r := by
  refine ⟨by simp [handleUnknownRequest, hres], ?_⟩
  intro r
  simp [handleUnknownRequest, hres]

/-- Witness for C6: a GET for `/nope` is answered with the error message
naming `/nope`, not with a wire response. -/
theorem handleUnknownRequest_unknown_witness :
    handleUnknownRequest (postConstructorInit 128)
        { verb := "GET", resource := "/nope" } ""
        = .sendErrorResponse ("unknown resource " ++ "/nope") ∧
    ∀ r : RTBKIT.HttpResponse,
      handleUnknownRequest (postConstructorInit 128)
        { verb := "GET", resource := "/nope" } "" ≠ .putResponseOnWire r :=
  handleUnknownRequest_unknown (postConstructorInit 128)
    { verb := "GET", resource := "/nope" } "" (by decide)

/-- C7: `getServiceStatus` reports the connection count, the active count,
the per-peer breakdown, and a load factor equal to active/total when the
total is nonzero and exactly 0 when the total is zero (the division is
guarded by `xdiv`, so a zero total yields 0, not a fault). -/
theorem getServiceStatus_report (numConnections numServingRequest : Nat)
    (peerCounts : List (String × Nat)) :
    (getServiceStatus numConnections numServingRequest peerCounts).numConnections
        = numConnections ∧
    (getServiceStatus numConnections numServingRequest peerCounts).activeConnections
        = numServingRequest ∧
    (getServiceStatus numConnections numServingRequest peerCounts).hostConnections
        = peerCounts ∧
    (numConnections = 0 →
      (getServiceStatus numConnections numServingRequest peerCounts).connectionLoadFactor
        = 0) ∧
    (numConnections ≠ 0 →
      (getServiceStatus numConnections numServingRequest peerCounts).connectionLoadFactor
        = (numServingRequest : ℚ) / (numConnections : ℚ)) := by
  refine ⟨rfl, rfl, rfl, ?_, ?_⟩
  · intro h0
    simp [getServiceStatus, xdiv, h0]
  · intro hne
    have : (numConnections : ℚ) ≠ 0 := by exact_mod_cast hne
    simp [getServiceStatus, xdiv, this]

/-- Witness for C7: with zero total connections (and 3 active, one peer
entry) the load factor is 0: the guarded branch is exercised. -/
theorem getServiceStatus_report_witness :
    (getServiceStatus 0 3 [("peer", 1)]).connectionLoadFactor = 0 :=
  (getServiceStatus_report 0 3 [("peer", 1)]).2.2.2.1 rfl

/-- C9: `start()` initialises the transport with the configured listen
port, bind host, thread count, reuse-address flag fixed to true,
name-lookup flag and backlog, and calls `makeRealTime` exactly when
`realTimePriority > -1` — equivalently, never when the priority is
negative (the default encoding). -/
theorem start_effect (s : ConnectorState) :
    (start s).initListenPort = s.listenPort ∧
    (start s).initBindHost = s.bindHost ∧
    (start s).initNumThreads = s.numThreads ∧
    (start s).initReuseAddr = true ∧
    (start s).initNameLookup = s.performNameLookup ∧
    (start s).initBacklog = s.backlog ∧
    ((start s).madeRealTime = some s.realTimePriority ↔ s.realTimePriority > -1) ∧
    ((start s).madeRealTime = none ↔ s.realTimePriority < 0) := by
  refine ⟨rfl, rfl, rfl, rfl, rfl, rfl, ?_, ?_⟩
  · constructor
    · intro h
      by_contra hng
      simp [start, hng] at h
    · intro h
      simp [start, h]
  · constructor
    · intro h
      by_contra hng
      have hgt : s.realTimePriority > -1 := by omega
      simp [start, hgt] at h
    · intro h
      have hng : ¬ s.realTimePriority > -1 := by omega
      simp [start, hng]

/-- C1: a handler created while logger `L` is installed is bound to `L`;
after any later sequence of `startRequestLogging` / `stopRequestLogging`
calls the handler is still in the live set with its logger field equal to
`L`, while `stopRequestLogging` resets the connector's shared logger
pointer to none. -/
theorem boundLogger_stable (s : ConnectorState) (L : Nat)
    (h : HttpAuctionHandler) (s2 : ConnectorState) (ops : List LogOp)
    (hlog : s.logger = some L)
    (hmk : makeNewHandlerShared s = .ok (h, s2)) :
    h.logger = some L ∧
    h ∈ (applyLogOps s2 ops).handlers ∧
    (stopRequestLogging (applyLogOps s2 ops)).logger = none := by
  obtain ⟨-, hhs, -, -, -, hbind⟩ := makeNewHandlerShared_ok_inv s h s2 hmk
  refine ⟨hbind L hlog, ?_, rfl⟩
  rw [applyLogOps_handlers, hhs]
  exact mem_insertHandler h s.handlers

/-- Witness for C1: on a fresh connector with logger 0 installed, the
created handler is bound to logger 0 and survives a stop-then-start
sequence with its binding intact, while the stop resets the shared
pointer. -/
theorem boundLogger_stable_witness :
    (startRequestLogging (postConstructorInit 128) "log" 10).logger = some 0 ∧
    ((⟨0, some 0, ⟨"", ""⟩⟩ : HttpAuctionHandler).logger = some 0 ∧
     (⟨0, some 0, ⟨"", ""⟩⟩ : HttpAuctionHandler) ∈
       (applyLogOps
         { startRequestLogging (postConstructorInit 128) "log" 10 with
             handlers := [⟨0, some 0, ⟨"", ""⟩⟩], nextHandlerId := 1 }
         [LogOp.stopLogging, LogOp.startLogging "other" 5]).handlers ∧
     (stopRequestLogging (applyLogOps
         { startRequestLogging (postConstructorInit 128) "log" 10 with
             handlers := [⟨0, some 0, ⟨"", ""⟩⟩], nextHandlerId := 1 }
         [LogOp.stopLogging, LogOp.startLogging "other" 5])).logger = none) :=
  ⟨rfl,
   boundLogger_stable (startRequestLogging (postConstructorInit 128) "log" 10)
     0 ⟨0, some 0, ⟨"", ""⟩⟩
     { startRequestLogging (postConstructorInit 128) "log" 10 with
         handlers := [⟨0, some 0, ⟨"", ""⟩⟩], nextHandlerId := 1 }
     [LogOp.stopLogging, LogOp.startLogging "other" 5] rfl rfl⟩

/-- C2: `makeNewHandlerShared` fails with the configuration error when no
handler factory is installed, fails with the construction error when the
factory returns null, and otherwise returns a shared handle to a handler
registered in the live set, bound to the current logger when one is
installed. -/
theorem makeNewHandlerShared_contract (s : ConnectorState) :
    (s.handlerFactory = none →
      makeNewHandlerShared s
        = .error (.configurationError "need to initialize handler factory")) ∧
    (∀ factory : Nat → Option HandlerProto,
      s.handlerFactory = some factory → factory s.nextHandlerId = none →
      makeNewHandlerShared s
        = .error (.constructionError "failed to create handler")) ∧
    (∀ factory : Nat → Option HandlerProto, ∀ proto : HandlerProto,
      s.handlerFactory = some factory → factory s.nextHandlerId = some proto →
      ∃ h s2, makeNewHandlerShared s = .ok (h, s2) ∧
        h ∈ s2.handlers ∧
        ∀ L : Nat, s.logger = some L → h.logger = some L) := by
  refine ⟨?_, ?_, ?_⟩
  · intro hf
    simp only [makeNewHandlerShared, hf]
  · intro factory hf hp
    simp only [makeNewHandlerShared, hf, hp]
  · intro factory proto hf hp
    cases hl : s.logger with
    | none =>
      refine ⟨⟨s.nextHandlerId, proto.logger, proto.header⟩,
        { s with
            handlers := insertHandler ⟨s.nextHandlerId, proto.logger, proto.header⟩
              s.handlers
            nextHandlerId := s.nextHandlerId + 1 }, ?_, ?_, ?_⟩
      · simp only [makeNewHandlerShared, hf, hp, hl]
      · exact mem_insertHandler _ _
      · intro L hL
        exact absurd hL (by simp)
    | some l =>
      refine ⟨⟨s.nextHandlerId, some l, proto.header⟩,
        { s with
            handlers := insertHandler ⟨s.nextHandlerId, some l, proto.header⟩
              s.handlers
            nextHandlerId := s.nextHandlerId + 1 }, ?_, ?_, ?_⟩
      · simp only [makeNewHandlerShared, hf, hp, hl]
      · exact mem_insertHandler _ _
      · intro L hL
        obtain rfl : l = L := by injection hL
        rfl

/-- Witness for C2: with the factory removed the configuration error is
raised; with a null-returning factory the construction error is raised;
on a fresh connector with a logger installed the call succeeds, registers
the handler and binds the logger. -/
theorem makeNewHandlerShared_contract_witness :
    makeNewHandlerShared { postConstructorInit 128 with handlerFactory := none }
      = .error (.configurationError "need to initialize handler factory") ∧
    makeNewHandlerShared
        { postConstructorInit 128 with handlerFactory := some fun _ => none }
      = .error (.constructionError "failed to create handler") ∧
    ∃ h s2, makeNewHandlerShared (startRequestLogging (postConstructorInit 128) "f" 2)
        = .ok (h, s2) ∧
      h ∈ s2.handlers ∧
      ∀ L : Nat, (startRequestLogging (postConstructorInit 128) "f" 2).logger = some L →
        h.logger = some L :=
  ⟨(makeNewHandlerShared_contract
      { postConstructorInit 128 with handlerFactory := none }).1 rfl,
   (makeNewHandlerShared_contract
      { postConstructorInit 128 with handlerFactory := some fun _ => none }).2.1
      (fun _ => none) rfl rfl,
   (makeNewHandlerShared_contract
      (startRequestLogging (postConstructorInit 128) "f" 2)).2.2
      defaultHandlerFactory ⟨none, ⟨"", ""⟩⟩ rfl rfl⟩

/-- C8: starting from an empty live set, after any sequence of
`makeNewHandlerShared` / `finishedWithHandler` calls the live-set size
equals the number of successful creates minus the number of releases of
handlers present in the set at release time, the latter never exceeding
the former (so the count never goes negative); releasing a handler not in
the set leaves the state unchanged. -/
theorem handlerRegistry_count (s : ConnectorState) (ops : List RegOp)
    (hinit : s.handlers = []) (hwf : HandlersWf s) :
    ((runRegOps s ops).handlers.length : ℤ)
        = ((countRegOps s ops).1 : ℤ) - ((countRegOps s ops).2 : ℤ) ∧
    (countRegOps s ops).2 ≤ (countRegOps s ops).1 ∧
    (∀ h : HttpAuctionHandler, h ∉ s.handlers → finishedWithHandler s h = s) := by
  have hlen := runRegOps_length s ops hwf
  rw [hinit] at hlen
  simp only [List.length_nil, Nat.cast_zero, zero_add] at hlen
  refine ⟨hlen, ?_, ?_⟩
  · omega
  · intro h hnm
    exact finishedWithHandler_not_mem s h hnm

/-- Witness for C8: on a fresh connector, two creates followed by a release
of the first created handler and a release of a never-created handler give
a live set of size one, with counts (2 creates, 1 effective release). -/
theorem handlerRegistry_count_witness :
    (postConstructorInit 128).handlers = [] ∧
    ((runRegOps (postConstructorInit 128)
        [RegOp.create, RegOp.create, RegOp.release ⟨0, none, ⟨"", ""⟩⟩,
         RegOp.release ⟨99, none, ⟨"", ""⟩⟩]).handlers.length : ℤ)
      = ((countRegOps (postConstructorInit 128)
          [RegOp.create, RegOp.create, RegOp.release ⟨0, none, ⟨"", ""⟩⟩,
           RegOp.release ⟨99, none, ⟨"", ""⟩⟩]).1 : ℤ)
        - ((countRegOps (postConstructorInit 128)
            [RegOp.create, RegOp.create, RegOp.release ⟨0, none, ⟨"", ""⟩⟩,
             RegOp.release ⟨99, none, ⟨"", ""⟩⟩]).2 : ℤ) ∧
    (countRegOps (postConstructorInit 128)
        [RegOp.create, RegOp.create, RegOp.release ⟨0, none, ⟨"", ""⟩⟩,
         RegOp.release ⟨99, none, ⟨"", ""⟩⟩]).2
      ≤ (countRegOps (postConstructorInit 128)
          [RegOp.create, RegOp.create, RegOp.release ⟨0, none, ⟨"", ""⟩⟩,
           RegOp.release ⟨99, none, ⟨"", ""⟩⟩]).1 :=
  ⟨rfl,
   (handlerRegistry_count (postConstructorInit 128)
      [RegOp.create, RegOp.create, RegOp.release ⟨0, none, ⟨"", ""⟩⟩,
       RegOp.release ⟨99, none, ⟨"", ""⟩⟩] rfl
      ⟨fun h hm => absurd hm (List.not_mem_nil h), List.nodup_nil⟩).1,
   (handlerRegistry_count (postConstructorInit 128)
      [RegOp.create, RegOp.create, RegOp.release ⟨0, none, ⟨"", ""⟩⟩,
       RegOp.release ⟨99, none, ⟨"", ""⟩⟩] rfl
      ⟨fun h hm => absurd hm (List.not_mem_nil h), List.nodup_nil⟩).2.1⟩

/-- C10: `postConstructorInit` installs the default handler factory, which
returns an instance on every call, so on a freshly constructed connector —
and after any sequence of registry calls, none of which replaces the
factory — `makeNewHandlerShared` succeeds and neither error branch is
reachable. -/
theorem freshConnector_create_succeeds (b : Int) (ops : List RegOp) :
    (postConstructorInit b).handlerFactory = some defaultHandlerFactory ∧
    (∀ i : Nat, defaultHandlerFactory i
        = some { logger := none, header := { verb := "", resource := "" } }) ∧
    (∃ h s2, makeNewHandlerShared (runRegOps (postConstructorInit b) ops)
        = .ok (h, s2)) ∧
    (∀ e : MakeHandlerError,
      makeNewHandlerShared (runRegOps (postConstructorInit b) ops) ≠ .error e) := by
  have hf : (runRegOps (postConstructorInit b) ops).handlerFactory
      = some defaultHandlerFactory := by
    rw [runRegOps_factory]
    rfl
  have hok : ∃ h s2, makeNewHandlerShared (runRegOps (postConstructorInit b) ops)
      = .ok (h, s2) := by
    cases hl : (runRegOps (postConstructorInit b) ops).logger with
    | none =>
      refine ⟨⟨(runRegOps (postConstructorInit b) ops).nextHandlerId, none, ⟨"", ""⟩⟩,
        { runRegOps (postConstructorInit b) ops with
            handlers := insertHandler
              ⟨(runRegOps (postConstructorInit b) ops).nextHandlerId, none, ⟨"", ""⟩⟩
              (runRegOps (postConstructorInit b) ops).handlers
            nextHandlerId := (runRegOps (postConstructorInit b) ops).nextHandlerId + 1 },
        ?_⟩
      simp only [makeNewHandlerShared, hf, defaultHandlerFactory, hl]
    | some l =>
      refine ⟨⟨(runRegOps (postConstructorInit b) ops).nextHandlerId, some l, ⟨"", ""⟩⟩,
        { runRegOps (postConstructorInit b) ops with
            handlers := insertHandler
              ⟨(runRegOps (postConstructorInit b) ops).nextHandlerId, some l, ⟨"", ""⟩⟩
              (runRegOps (postConstructorInit b) ops).handlers
            nextHandlerId := (runRegOps (postConstructorInit b) ops).nextHandlerId + 1 },
        ?_⟩
      simp only [makeNewHandlerShared, hf, defaultHandlerFactory, hl]
  refine ⟨?_, fun i => rfl, hok, ?_⟩
  · rfl
  · obtain ⟨h, s2, hokeq⟩ := hok
    intro e heq
    rw [hokeq] at heq
    exact Except.noConfusion heq

/-- Witness for C9: with `realTimePriority` configured to 5, `start`
requests real-time scheduling at priority 5. -/
theorem start_effect_witness :
    (start { postConstructorInit 128 with realTimePriority := 5 }).madeRealTime
      = some 5 :=
  ((start_effect { postConstructorInit 128 with realTimePriority := 5 }
    ).2.2.2.2.2.2.1).mpr (by decide)

/-- Witness for C10: on a freshly constructed connector (no registry calls
yet), `makeNewHandlerShared` does not raise the configuration error. -/
theorem freshConnector_create_succeeds_witness :
    makeNewHandlerShared (runRegOps (postConstructorInit 128) [])
      ≠ .error (.configurationError "need to initialize handler factory") :=
  (freshConnector_create_succeeds 128 []).2.2.2
    (.configurationError "need to initialize handler factory")

end RTBKIT
